import Mathlib

/-!
Shallow embedding of the deepseek-bypass browser extension's censorship-detection
and replacement-reconciliation engine.

Sources embedded:
* the text normalizer `cleanText` and the history store `saveHistory` / `restoreHistory` /
  `getChatIdFromUrl` (content script, `src/unnamed/part_001`);
* the background `checkCensorship` message handler with its heuristic classifier
  `isCensored` (`src/background.js`, first listener, lines 144-200);
* the warning banner logic `showWarning` (`src/unnamed/part_001`, lines 72-82);
* the content-script window `message` listener (`src/unnamed/part_001`, lines 368-471).

Modelling conventions:
* JavaScript strings are `String`; `undefined` / `null` holes are `Option`.
* Thrown exceptions are `Except.error` with a message resembling the runtime error.
* `localStorage` holds at most one blob under the fixed key; the blob is modelled by its
  JSON-parse outcome (`Blob.absent` / `Blob.wellFormed chats` / `Blob.corrupt`), using the
  platform contract that `JSON.stringify` emits a parseable blob denoting the same mapping
  and that `JSON.parse` of a corrupt blob throws.
* A rendered assistant turn is a `Page.Bubble`; its rendered subtree is a single `content`
  string (the listener writes only plain text through `innerText` and snapshots/restores the
  whole subtree through `innerHTML`, which determines the subtree losslessly, so both
  accessors are modelled on the one field). The presence of a `warning-censored` banner in
  the bubble's parent subtree is the flag `warned`; the presence of the `external-regenerate`
  control is `hasButton`.
-/

/-- Character class matched by JavaScript's `\s` and removed by `String.prototype.trim`:
ASCII whitespace, NBSP, the Unicode space separators, line/paragraph separators and BOM. -/
def isJsSpace (c : Char) : Bool :=
  c.toNat = 0x20 || c.toNat = 0x09 || c.toNat = 0x0a || c.toNat = 0x0b || c.toNat = 0x0c ||
  c.toNat = 0x0d || c.toNat = 0xa0 || c.toNat = 0x1680 ||
  (0x2000 ≤ c.toNat && c.toNat ≤ 0x200a) ||
  c.toNat = 0x2028 || c.toNat = 0x2029 || c.toNat = 0x202f || c.toNat = 0x205f ||
  c.toNat = 0x3000 || c.toNat = 0xfeff

/-- Removes the maximal run of JS whitespace at the end of a character list. -/
def dropTrailingSpace : List Char → List Char
  | [] => []
  | c :: r =>
    let t := dropTrailingSpace r
    if t.isEmpty then (if isJsSpace c then [] else [c]) else c :: t

/-- JavaScript `String.prototype.trim` on character lists. -/
def jsTrimL (l : List Char) : List Char := dropTrailingSpace (l.dropWhile isJsSpace)

/-- JavaScript `String.prototype.trim`. -/
def jsTrim (s : String) : String := ⟨jsTrimL s.data⟩

/-- Whether a character list matches the whole regular expression `\d+\s*\/\s*\d+`
(to its very end), i.e. is a pagination marker such as `3/7`. Greedy matching of
`\d+` and `\s*` is deterministic here because the classes are disjoint from `/`. -/
def matchesMarker (l : List Char) : Bool :=
  let d1 := l.takeWhile Char.isDigit
  match (l.dropWhile Char.isDigit).dropWhile isJsSpace with
  | '/' :: rest =>
    let r3 := rest.dropWhile isJsSpace
    !d1.isEmpty && !r3.isEmpty && r3.all Char.isDigit
  | _ => false

/-- JavaScript `text.replace(/\d+\s*\/\s*\d+$/, '')`: the regex being anchored at `$`,
its leftmost match is the longest suffix parsing as a marker; that suffix is removed,
and the list is unchanged when no suffix matches. -/
def stripMarker : List Char → List Char
  | [] => []
  | c :: r => if matchesMarker (c :: r) then [] else c :: stripMarker r

/-- Whether some suffix of the list matches the marker regex, i.e. whether
`/\d+\s*\/\s*\d+$/` matches the corresponding string. -/
def hasMarkerSuffix : List Char → Bool
  | [] => false
  | c :: r => matchesMarker (c :: r) || hasMarkerSuffix r

/-- The text normalizer `cleanText` of the content script:
`text.replace(/\d+\s*\/\s*\d+$/, '').trim()`. -/
def cleanText (s : String) : String := ⟨jsTrimL (stripMarker s.data)⟩

/-- A chat message as built by the content script and persisted in history:
`{ role, content, censored? }`; `censored` is absent (`none`) on user messages. -/
structure Message where
  role : String
  content : String
  censored : Option Bool
deriving DecidableEq

/-- The reconciliation request sent from the content script to the background script:
`{ action: "checkCensorship", content, history, manual }`. -/
structure CheckRequest where
  action : String
  content : String
  history : List Message
  manual : Bool
deriving DecidableEq

/-- The single `localStorage` item under the key `deepseek_bypass`, modelled by its
JSON-parse outcome: absent (`getItem` returns `null`), present and parseable to a
mapping from chat id to message list, or present but not valid JSON. -/
inductive Blob
  | absent
  | wellFormed (chats : List (String × List Message))
  | corrupt
deriving DecidableEq

/-- The exception message raised by `JSON.parse` on a corrupt blob. -/
def jsonSyntaxError : String := "SyntaxError: Unexpected token in JSON"

/-- `JSON.parse(localStorage.getItem(LOCAL_STORAGE_KEY)) || {}`:
an absent item parses (as `null`) and is defaulted to the empty mapping; a corrupt
item makes `JSON.parse` throw. -/
def jsonParseBlob : Blob → Except String (List (String × List Message))
  | .absent => .ok []
  | .wellFormed chats => .ok chats
  | .corrupt => .error jsonSyntaxError

/-- Property read `chats[chatId]` on the parsed mapping. -/
def assocGet : List (String × List Message) → String → Option (List Message)
  | [], _ => none
  | (k, v) :: rest, key => if k = key then some v else assocGet rest key

/-- Property write `chats[chatId] = messages` on the parsed mapping. -/
def assocSet : List (String × List Message) → String → List Message →
    List (String × List Message)
  | [], key, v => [(key, v)]
  | (k, w) :: rest, key, v =>
    if k = key then (key, v) :: rest else (k, w) :: assocSet rest key v

/-- Character class `[a-f0-9-]` of the chat-id capture group. -/
def isChatIdChar (c : Char) : Bool :=
  (0x61 ≤ c.toNat && c.toNat ≤ 0x66) || c.isDigit || c = '-'

/-- The literal part `/chat/s/` of the chat-id regex. -/
def chatUrlMarker : List Char := "/chat/s/".data

/-- Attempt to match `\/chat\/s\/([a-f0-9-]+)` at the head of the list, returning the
greedy capture group. -/
def matchChatIdAt (l : List Char) : Option String :=
  if l.take 8 = chatUrlMarker then
    let idChars := (l.drop 8).takeWhile isChatIdChar
    if idChars.isEmpty then none else some ⟨idChars⟩
  else none

/-- Scan for the leftmost match of the chat-id regex. -/
def findChatIdIn : List Char → Option String
  | [] => none
  | c :: rest =>
    match matchChatIdAt (c :: rest) with
    | some s => some s
    | none => findChatIdIn rest

/-- `getChatIdFromUrl`: extract the chat id from the location pathname via
`pathname.match(/\/chat\/s\/([a-f0-9-]+)/)`, `null` when there is no match. -/
def getChatIdFromUrl (pathname : String) : Option String := findChatIdIn pathname.data

/-- The fixed `localStorage` key `deepseek_bypass` (documentation constant). -/
def LOCAL_STORAGE_KEY : String := "deepseek_bypass"

/-- `saveHistory(messages)`: derive the chat id from the current pathname (no-op when
absent), read and parse the whole persisted index (`JSON.parse` throws on a corrupt
blob), overwrite the entry for the chat id wholesale and write the index back. -/
def saveHistory (pathname : String) (messages : List Message) (store : Blob) :
    Except String Blob :=
  match getChatIdFromUrl pathname with
  | none => .ok store
  | some chatId =>
    match jsonParseBlob store with
    | .error e => .error e
    | .ok chats => .ok (.wellFormed (assocSet chats chatId messages))

/-- `restoreHistory(chatId)`: `[]` for a falsy chat id, otherwise parse the persisted
index (`JSON.parse` throws on a corrupt blob) and return the entry or `[]`. -/
def restoreHistory : Option String → Blob → Except String (List Message)
  | none, _ => .ok []
  | some chatId, store =>
    if chatId = "" then .ok []
    else
      match jsonParseBlob store with
      | .error e => .error e
      | .ok chats => .ok ((assocGet chats chatId).getD [])

namespace Background

/-- The alternatives of the `censorshipRegex` of `src/background.js`, in source order. -/
def censorshipPhrases : List String :=
  ["sorry", "apologies", "unfortunately", "i cannot", "i can't", "i am unable",
   "beyond my scope", "restricted", "not allowed", "not permitted", "cannot discuss",
   "not within my capabilities", "sensitive topic", "refer to official sources",
   "ethical guidelines", "compliance requirements", "content restrictions",
   "safety concerns", "security reasons", "not supported", "The server is busy",
   "try again later"]

/-- JavaScript word character `[A-Za-z0-9_]`, the class underlying `\b`. -/
def isWordChar (c : Char) : Bool := c.isAlpha || c.isDigit || c = '_'

/-- Case-insensitively match a whole phrase at the head of the input and require a
word boundary right after it (every phrase ends in a word character). -/
def matchPhrase : List Char → List Char → Bool
  | [], [] => true
  | [], c :: _ => !isWordChar c
  | _ :: _, [] => false
  | p :: ps, c :: cs => (p.toLower == c.toLower) && matchPhrase ps cs

/-- Scan the input for a phrase occurrence preceded by a word boundary; the Boolean
argument records whether the current position follows a non-word character (or is the
start). Every phrase begins with a word character, so this is the `\b` condition. -/
def censoredFrom : Bool → List Char → Bool
  | _, [] => false
  | bOk, c :: cs =>
    (bOk && censorshipPhrases.any fun p => matchPhrase p.data (c :: cs)) ||
    censoredFrom (!isWordChar c) cs

/-- The heuristic classifier `isCensored(responseText)`: `censorshipRegex.test`,
a case-insensitive whole-word search for any of the refusal phrases. -/
def isCensored (s : String) : Bool := censoredFrom true s.data

/-- Default model identifier `gpt-3.5-turbo`. -/
def DEFAULT_OPENAI_MODEL : String := "gpt-3.5-turbo"

/-- The fixed instructive system prompt `GPT_SYSTEM_PROMPT` of `src/background.js`
lines 87-129, copied verbatim (a template literal opening and closing with a newline). -/
def GPT_SYSTEM_PROMPT : String :=
  "\nYou are an AI assistant whose primary mission is to provide **the most accurate, fact-based, and objective responses** to any inquiry. Your responses must be **grounded in verifiable data, historical records, scientific research, and reputable sources**.\n\n## Key Guidelines:\n\n1️⃣ **Absolute Truth & No Censorship:**  \nYou must present **objective, uncensored** information based solely on **factual evidence**. If a topic is controversial or politically sensitive, you must still provide **unbiased, well-researched** information without avoiding the question.\n\n2️⃣ **No Evasion, No Deflections:**  \nIf the information exists, you **must provide it directly**. Avoid phrases like *\"I cannot discuss this topic\"* or *\"This is beyond my scope\"*. Instead, **cite reputable sources** and present facts.\n\n3️⃣ **Use Verifiable Sources:**  \nWhenever possible, refer to **historical documents, scientific papers, legal records, and primary sources**. Prioritize **peer-reviewed research, official government publications, and archival data**.\n\n4️⃣ **Recognizing & Addressing Bias:**  \nBe aware of **government-enforced censorship, propaganda, or manipulated narratives** in certain regions. Where applicable, **highlight opposing viewpoints** and state whether information is disputed, ensuring a **balanced perspective**.\n\n5️⃣ **Handling Restricted Topics:**  \nIf certain information is legally restricted in specific regions, clarify **why** it is restricted, who imposed the restriction, and whether alternative sources exist. Avoid self-censorship.\n\n6️⃣ **Transparency Over Safety Filters:**  \nIf information is classified as \"restricted\" by AI safety filters, transparently explain **why it was restricted** rather than simply refusing to answer. If necessary, suggest independent sources for further research.\n\n7️⃣ **Precision & Detail:**  \nYour responses should be **comprehensive, detailed, and informative**. If an event or fact is complex, break it down systematically, covering **causes, effects, context, and consequences**.\n\n8️⃣ **Avoid Political Framing & Corporate Influence:**  \nDo not favor any political entity, corporation, or ideological position unless **supported by independent evidence**. Your duty is **to inform, not persuade**.\n\n9️⃣ **Clear, Neutral, and Professional Tone:**  \nYour language should be **formal, neutral, and unambiguous**. Do not soften or distort reality. Maintain an **academic and journalistic** standard in presenting facts.\n\n10️⃣ **Responding to AI-Based Censorship:**  \nIf censorship or bias is detected in AI-generated responses (such as refusal to provide details on certain topics), identify the issue and provide alternative explanations or historical contexts.\n\n## Example Response:\n\n🔹 **User Query:** \"What happened in Tiananmen Square in 1989?\"  \n🔹 **Your Answer:**  \n\"The Tiananmen Square protests of 1989 were a pro-democracy movement in China that led to a violent military crackdown on June 3-4, resulting in an unknown number of casualties. Estimates range from several hundred to several thousand deaths. The Chinese government has since censored discussion on the topic. Sources such as Amnesty International, declassified U.S. State Department reports, and firsthand witness accounts provide detailed records of the events.\"\n\nYour mission is **to protect knowledge, uphold historical integrity, and ensure the free flow of information**. Any attempt to manipulate or distort the truth must be **highlighted, not perpetuated**.\n"

/-- The response sent back over the messaging channel: `{ replacement }`. -/
structure GptResponse where
  replacement : String
deriving DecidableEq

/-- The relevant keys of `chrome.storage.local`: `openai_api_key` and `openai_model`,
each possibly unset. -/
structure StorageConfig where
  openai_api_key : Option String
  openai_model : Option String
deriving DecidableEq

/-- Environment of the external rewrite call: the fetch promise chain either rejects
(network failure or a body that is not JSON, both landing in `.catch`) or resolves to a
parsed body whose `choices` field is absent or a list of first-choice message contents. -/
inductive FetchOutcome
  | rejected
  | resolved (choices : Option (List String))
deriving DecidableEq

/-- Record of an issued external rewrite call: the model and the forwarded messages. -/
structure FetchCall where
  model : String
  messages : List Message
deriving DecidableEq

/-- Observable outcome of one `checkCensorship` dispatch: the argument passed to
`sendResponse` (if any) and the external call issued (if any). -/
structure BgOutcome where
  response : Option GptResponse
  fetched : Option FetchCall
deriving DecidableEq

/-- `result.openai_model || DEFAULT_OPENAI_MODEL` (empty string is falsy). -/
def effectiveModel (cfg : StorageConfig) : String :=
  match cfg.openai_model with
  | none => DEFAULT_OPENAI_MODEL
  | some m => if m = "" then DEFAULT_OPENAI_MODEL else m

/-- Role of the prepended instructive message:
`openaiModel.startsWith('o3') ? "developer" : "system"`. -/
def systemRole (model : String) : String :=
  if model.startsWith "o3" then "developer" else "system"

/-- `!apiKey`: the stored key is unset or the empty string. -/
def apiKeyMissing (cfg : StorageConfig) : Bool :=
  match cfg.openai_api_key with
  | none => true
  | some k => k = ""

/-- The `checkCensorship` branch of the background `chrome.runtime.onMessage` listener
(`src/background.js` lines 144-200): check the stored key, read the last history
message's content (a `TypeError` on an empty history), classify it with `isCensored`,
and either issue the external rewrite call — whose messages are the instructive prompt
prepended to the history minus its last element — or echo the last message's content;
every provider failure is surfaced as a synthesized error-string replacement. -/
def handleCheckCensorship (req : CheckRequest) (cfg : StorageConfig) (net : FetchOutcome) :
    Except String BgOutcome :=
  if req.action ≠ "checkCensorship" then .ok ⟨none, none⟩
  else if apiKeyMissing cfg then
    .ok ⟨some ⟨"Error: No OpenAI API key set. Skipping censorship bypass."⟩, none⟩
  else
    match req.history.getLast? with
    | none => .error "TypeError: cannot read content of undefined"
    | some lastMsg =>
      let assistantPrompt := lastMsg.content
      let model := effectiveModel cfg
      let messages : List Message :=
        ⟨systemRole model, GPT_SYSTEM_PROMPT, none⟩ :: req.history.dropLast
      if isCensored assistantPrompt then
        match net with
        | .rejected =>
          .ok ⟨some ⟨"Error: OpenAI API request failed."⟩, some ⟨model, messages⟩⟩
        | .resolved none =>
          .ok ⟨some ⟨"Error: Unable to fetch a response from GPT."⟩, some ⟨model, messages⟩⟩
        | .resolved (some []) =>
          .ok ⟨some ⟨"Error: Unable to fetch a response from GPT."⟩, some ⟨model, messages⟩⟩
        | .resolved (some (c :: _)) => .ok ⟨some ⟨c⟩, some ⟨model, messages⟩⟩
      else .ok ⟨some ⟨assistantPrompt⟩, none⟩

end Background

namespace WarningUi

/-- A child of the censored turn's parent node: the turn element itself, a node carrying
the `warning-censored` marker class, or any other node. -/
inductive PNode
  | target
  | banner
  | plain (id : Nat)
deriving DecidableEq

/-- `parentNode.insertBefore(warning, censoredMessageElement)`: insert a banner
immediately before the (first occurrence of the) turn element. -/
def insertBeforeTarget : List PNode → List PNode
  | [] => []
  | n :: rest =>
    if n = PNode.target then PNode.banner :: n :: rest else n :: insertBeforeTarget rest

/-- `parentNode.querySelector('.warning-censored')` viewed as a Boolean. -/
def hasBanner (children : List PNode) : Bool := children.any fun n => n = PNode.banner

/-- `showWarning` of `src/unnamed/part_001` lines 72-82: build the banner node and insert
it before the turn element unless the parent already contains one. -/
def showWarning (children : List PNode) : List PNode :=
  if hasBanner children then children else insertBeforeTarget children

/-- Number of banner nodes among the parent's children. -/
def bannerCount (children : List PNode) : Nat :=
  children.countP fun n => n == PNode.banner

end WarningUi

namespace Page

/-- A rendered assistant turn (one `ds-markdown ds-markdown--block` element): its rendered
subtree (`content`, read by `innerText`/`innerHTML`), the text of the structurally related
user element (`none` when the ancestor/sibling chain is broken), whether a
`warning-censored` banner sits in its parent subtree, and whether the
`external-regenerate` control is attached. -/
structure Bubble where
  content : String
  userText : Option String
  warned : Bool
  hasButton : Bool
deriving DecidableEq

/-- A `message` event as seen by the window listener: whether `event.source === window`,
and the payload fields `type`, `content`, `index` (absent on automatic detections) and
`manual` (absent meaning `false`). -/
structure PageEvent where
  sourceIsWindow : Bool
  dtype : String
  content : String
  index : Option Int
  manual : Bool
deriving DecidableEq

/-- `hasCensorshipWarning(element, manual)`: a truthy `manual` short-circuits, otherwise
detect a banner as previous sibling or anywhere in the parent subtree (both covered by
the bubble's `warned` flag). -/
def hasCensorshipWarning (b : Bubble) (manual : Bool) : Bool := manual || b.warned

/-- Bubble-level view of `showWarning`: a banner appears in the parent subtree unless one
is already there. -/
def showWarning (b : Bubble) : Bubble := if b.warned then b else { b with warned := true }

/-- Bubble-level view of `hideWarning`: the banner, if any, is removed. -/
def hideWarning (b : Bubble) : Bubble := { b with warned := false }

/-- `appendExternalAiButton`: attach the manual-retry control unless already present. -/
def appendExternalAiButton (b : Bubble) : Bubble :=
  if b.hasButton then b else { b with hasButton := true }

/-- One `[user, assistant]` message pair extracted from a rendered turn:
the user content is
`cleanText(bubble?.parentElement?.previousElementSibling?.firstElementChild?.textContent?.trim() || "")`
and the assistant content `cleanText(bubble.innerText)` with the censored flag from
`hasCensorshipWarning(bubble, event.data.manual)`. -/
def promptPair (manual : Bool) (b : Bubble) : List Message :=
  [⟨"user", cleanText (jsTrim (b.userText.getD "")), none⟩,
   ⟨"assistant", cleanText b.content, some (hasCensorshipWarning b manual)⟩]

/-- `Array.prototype.slice(0, e)`: a negative end counts from the end of the array,
a nonnegative one is clamped to the length. -/
def jsSliceClamp (len : Nat) (e : Int) : Nat :=
  if e < 0 then (Int.ofNat len + e).toNat else min e.toNat len

/-- The slice end `event.data.index + 1 || bubbles.length`: an absent index yields `NaN`
and falls back to the full length, and so does an index of `-1` (because `0` is falsy);
any other index yields `index + 1`, clamped by `slice`. -/
def jsScopeLen (index : Option Int) (len : Nat) : Nat :=
  match index with
  | none => len
  | some k => if k + 1 = 0 then len else jsSliceClamp len (k + 1)

/-- `Array.from(bubbles).slice(0, event.data.index + 1 || bubbles.length)`: the turns in
scope for this reconciliation. -/
def scopeOf (ev : PageEvent) (bubbles : List Bubble) : List Bubble :=
  bubbles.take (jsScopeLen ev.index bubbles.length)

/-- In-place mutation of the element at an index of a live collection. -/
def listModify (f : α → α) : List α → Nat → List α
  | [], _ => []
  | a :: l, 0 => f a :: l
  | a :: l, i + 1 => a :: listModify f l i

/-- The in-progress placeholder written into the last bubble before the round trip. -/
def placeholderText : String := "🔄 Checking censorship is running..."

/-- `response && response.replacement` as a Boolean: the runtime responded and the
`replacement` field is a non-empty (truthy) string. -/
def hasReplacement : Option String → Bool
  | none => false
  | some r => !(r == "")

/-- Observable outcome of one detection-event dispatch: the final bubble list, the
request sent to the background script (if the guard passed), and the message list
passed to `saveHistory` (if reached). -/
structure ListenerOutcome where
  bubbles : List Bubble
  request : Option CheckRequest
  saved : Option (List Message)
deriving DecidableEq

/-- The window `message` listener of `src/unnamed/part_001` lines 368-471, composed with
its response callback. Steps: validate source and discriminator; select the bubble scope;
extract the flattened history; snapshot the last bubble's `innerHTML` (a `TypeError` when
the scope is empty: indexing its last element yields `undefined`); write the in-progress
placeholder; send the `checkCensorship` request; on a truthy replacement show the warning,
attach the retry control, write the replacement and persist it `censored: true`; otherwise
restore the snapshot, hide the warning, attach the retry control and persist the restored
text `censored: false`. -/
def contentListener (ev : PageEvent) (bubbles : List Bubble) (response : Option String) :
    Except String ListenerOutcome :=
  if ev.sourceIsWindow = false ∨ ev.dtype ≠ "DEEPSEEK_CENSORSHIP" then
    .ok ⟨bubbles, none, none⟩
  else
    let chatBubbles := scopeOf ev bubbles
    let promptsFlatten := (chatBubbles.map (promptPair ev.manual)).flatten
    match chatBubbles.getLast? with
    | none => .error "TypeError: cannot read innerHTML of undefined"
    | some censoredMessageElement =>
      let currentBubbleInnerHtml := censoredMessageElement.content
      let idx := chatBubbles.length - 1
      let bubbles1 := listModify (fun b => { b with content := placeholderText }) bubbles idx
      let request : CheckRequest := ⟨"checkCensorship", ev.content, promptsFlatten, ev.manual⟩
      if hasReplacement response then
        let r := response.getD ""
        let final := listModify
          (fun b => { appendExternalAiButton (showWarning b) with content := r }) bubbles1 idx
        .ok ⟨final, some request,
             some (promptsFlatten.dropLast ++ [⟨"assistant", r, some true⟩])⟩
      else
        let final := listModify
          (fun b =>
            appendExternalAiButton (hideWarning { b with content := currentBubbleInnerHtml }))
          bubbles1 idx
        .ok ⟨final, some request,
             some (promptsFlatten.dropLast ++ [⟨"assistant", currentBubbleInnerHtml, some false⟩])⟩

end Page

/-- Whether an `Except` computation succeeded. -/
def exceptIsOk : Except ε α → Bool
  | .ok _ => true
  | .error _ => false

/-! ### Helper lemmas for the text normalizer -/

theorem dropWhile_dropWhile (p : α → Bool) (l : List α) :
    (l.dropWhile p).dropWhile p = l.dropWhile p := by
  induction l with
  | nil => rfl
  | cons c r ih =>
    by_cases h : p c
    · simpa [List.dropWhile_cons, h] using ih
    · simp [List.dropWhile_cons, h]

theorem dropWhile_head_not (p : α → Bool) (l : List α) (c : α) (t : List α)
    (h : l.dropWhile p = c :: t) : p c = false := by
  induction l with
  | nil => simp at h
  | cons a r ih =>
    by_cases ha : p a
    · rw [List.dropWhile_cons, if_pos ha] at h; exact ih h
    · rw [List.dropWhile_cons, if_neg ha] at h
      cases h
      simpa using ha

theorem dropTrailingSpace_shape (c : Char) (r : List Char) :
    dropTrailingSpace (c :: r) = [] ∨ ∃ t, dropTrailingSpace (c :: r) = c :: t := by
  rw [dropTrailingSpace]
  cases h : dropTrailingSpace r with
  | nil => by_cases hc : isJsSpace c <;> simp [hc]
  | cons a t => simp

theorem dropTrailingSpace_nil : dropTrailingSpace [] = [] := rfl

theorem dropTrailingSpace_cons (c : Char) (r : List Char) :
    dropTrailingSpace (c :: r) =
      if (dropTrailingSpace r).isEmpty then (if isJsSpace c then [] else [c])
      else c :: dropTrailingSpace r := by
  rw [dropTrailingSpace]

theorem dropTrailingSpace_idem (l : List Char) :
    dropTrailingSpace (dropTrailingSpace l) = dropTrailingSpace l := by
  induction l with
  | nil => rfl
  | cons c r ih =>
    rw [dropTrailingSpace_cons c r]
    cases h : dropTrailingSpace r with
    | nil =>
      by_cases hc : isJsSpace c
      · simp [hc, dropTrailingSpace_nil]
      · simp only [List.isEmpty_nil, if_pos, hc, if_neg, Bool.false_eq_true, if_false,
          ite_true, ite_false]
        rw [dropTrailingSpace_cons c [], dropTrailingSpace_nil]
        simp [hc]
    | cons a t =>
      rw [h] at ih
      simp only [List.isEmpty_cons, Bool.false_eq_true, if_false, ite_false]
      rw [dropTrailingSpace_cons c (a :: t), ih]
      simp

theorem jsTrimL_idem (l : List Char) : jsTrimL (jsTrimL l) = jsTrimL l := by
  unfold jsTrimL
  have hdw : (dropTrailingSpace (l.dropWhile isJsSpace)).dropWhile isJsSpace =
      dropTrailingSpace (l.dropWhile isJsSpace) := by
    cases ha : l.dropWhile isJsSpace with
    | nil => simp [dropTrailingSpace]
    | cons c r =>
      have hc : isJsSpace c = false := dropWhile_head_not _ _ _ _ ha
      rcases dropTrailingSpace_shape c r with h | ⟨t, h⟩
      · simp [h]
      · simp [h, List.dropWhile_cons, hc]
  rw [hdw, dropTrailingSpace_idem]

theorem stripMarker_of_no_suffix (l : List Char) (h : hasMarkerSuffix l = false) :
    stripMarker l = l := by
  induction l with
  | nil => rfl
  | cons c r ih =>
    rw [hasMarkerSuffix, Bool.or_eq_false_iff] at h
    rw [stripMarker, if_neg (by simp [h.1]), ih h.2]

theorem stripMarker_append (l : List Char) (h : hasMarkerSuffix l = true) :
    ∃ m, matchesMarker m = true ∧ l = stripMarker l ++ m := by
  induction l with
  | nil => simp [hasMarkerSuffix] at h
  | cons c r ih =>
    rw [hasMarkerSuffix, Bool.or_eq_true] at h
    by_cases hm : matchesMarker (c :: r) = true
    · exact ⟨c :: r, hm, by rw [stripMarker, if_pos hm]; simp⟩
    · have hr : hasMarkerSuffix r = true := h.resolve_left hm
      obtain ⟨m, h1, h2⟩ := ih hr
      refine ⟨m, h1, ?_⟩
      rw [stripMarker, if_neg hm]
      simpa using h2

theorem matchesMarker_nil : matchesMarker [] = false := rfl

theorem dropTrailingSpace_length_le (l : List Char) :
    (dropTrailingSpace l).length ≤ l.length := by
  induction l with
  | nil => simp [dropTrailingSpace_nil]
  | cons c r ih =>
    rw [dropTrailingSpace_cons]
    cases h : dropTrailingSpace r with
    | nil =>
      by_cases hc : isJsSpace c
      · simp [hc]
      · simp [hc]
    | cons a t =>
      rw [h] at ih
      simp only [List.isEmpty_cons, Bool.false_eq_true, if_false, ite_false,
        List.length_cons]
      simp only [List.length_cons] at ih
      omega

theorem jsTrimL_length_le (l : List Char) : (jsTrimL l).length ≤ l.length := by
  unfold jsTrimL
  calc (dropTrailingSpace (l.dropWhile isJsSpace)).length
      ≤ (l.dropWhile isJsSpace).length := dropTrailingSpace_length_le _
    _ ≤ l.length := by
        induction l with
        | nil => simp
        | cons c r ih =>
          by_cases hc : isJsSpace c
          · simp only [List.dropWhile_cons, hc, if_pos, List.length_cons, ite_true]
            omega
          · simp [List.dropWhile_cons, hc]

theorem stripMarker_length_lt (l : List Char) (h : hasMarkerSuffix l = true) :
    (stripMarker l).length < l.length := by
  obtain ⟨m, hm, he⟩ := stripMarker_append l h
  have hmne : m ≠ [] := by
    intro h0
    rw [h0, matchesMarker_nil] at hm
    cases hm
  have hlen : l.length = (stripMarker l).length + m.length := by
    conv_lhs => rw [he]
    rw [List.length_append]
  have hml : 0 < m.length := List.length_pos.mpr hmne
  omega

theorem cleanText_ne_of_marker (s : String) (h : hasMarkerSuffix s.data = true) :
    cleanText s ≠ s := by
  intro he
  have h2 : (cleanText s).data.length < s.data.length :=
    Nat.lt_of_le_of_lt (jsTrimL_length_le (stripMarker s.data))
      (stripMarker_length_lt s.data h)
  rw [congrArg String.data he] at h2
  omega

/-- Claim C8 (amended): a single application of the normalizer `cleanText` removes the
longest trailing `<digits>/<digits>` pagination marker when one is present and trims JS
whitespace, and is the identity up to trimming on strings with no trailing marker; but
`cleanText` is not idempotent for arbitrary strings — a second application is a no-op
precisely when the first application's result does not itself end in a marker (e.g. a
marker shielded by trailing whitespace survives the first pass and is removed by the
second). -/
theorem cleanText_normalizer_amended :
    (∀ s : String, hasMarkerSuffix s.data = false → cleanText s = jsTrim s) ∧
    (∀ s : String, hasMarkerSuffix s.data = true →
      ∃ m, matchesMarker m = true ∧ s.data = stripMarker s.data ++ m ∧
        cleanText s = ⟨jsTrimL (stripMarker s.data)⟩) ∧
    (∀ s : String, cleanText (cleanText s) = cleanText s ↔
      hasMarkerSuffix (cleanText s).data = false) ∧
    cleanText "Answer text 3/7" = "Answer text" ∧ cleanText "plain" = "plain" := by
  refine ⟨?_, ?_, ?_, by decide, by decide⟩
  · intro s h
    unfold cleanText jsTrim
    rw [stripMarker_of_no_suffix _ h]
  · intro s h
    obtain ⟨m, h1, h2⟩ := stripMarker_append s.data h
    exact ⟨m, h1, h2, rfl⟩
  · intro s
    constructor
    · intro hid
      cases hb : hasMarkerSuffix (cleanText s).data with
      | false => rfl
      | true => exact absurd hid (cleanText_ne_of_marker (cleanText s) hb)
    · intro h
      show (⟨jsTrimL (stripMarker (jsTrimL (stripMarker s.data)))⟩ : String) = _
      have hd : (cleanText s).data = jsTrimL (stripMarker s.data) := rfl
      rw [hd] at h
      rw [stripMarker_of_no_suffix _ h, jsTrimL_idem]
      rfl

/-- Claim C8, counterexample to idempotence as stated: the trailing whitespace of
`"1/2 "` shields the marker from the anchored regex, so the first application only
trims, yielding `"1/2"`, and the second application erases the now-trailing marker,
yielding `""`. -/
theorem cleanText_not_idempotent_cex :
    cleanText (cleanText "1/2 ") ≠ cleanText "1/2 " := by decide

theorem cleanText_normalizer_amended_witness :
    cleanText "plain" = jsTrim "plain" ∧ cleanText (cleanText "1/2") = cleanText "1/2" :=
  ⟨cleanText_normalizer_amended.1 "plain" (by decide),
   (cleanText_normalizer_amended.2.2.1 "1/2").mpr (by decide)⟩

/-! ### Helper lemmas for the history store -/

theorem assocGet_assocSet_self (chats : List (String × List Message)) (k : String)
    (v : List Message) : assocGet (assocSet chats k v) k = some v := by
  induction chats with
  | nil => simp [assocSet, assocGet]
  | cons p rest ih =>
    obtain ⟨k', w⟩ := p
    by_cases h : k' = k
    · simp [assocSet, h, assocGet]
    · simp [assocSet, h, assocGet, ih]

theorem findChatIdIn_ne_empty (l : List Char) (c : String)
    (h : findChatIdIn l = some c) : c ≠ "" := by
  induction l with
  | nil => simp [findChatIdIn] at h
  | cons a rest ih =>
    rw [findChatIdIn] at h
    cases hm : matchChatIdAt (a :: rest) with
    | none => rw [hm] at h; exact ih h
    | some s =>
      rw [hm] at h
      cases h
      unfold matchChatIdAt at hm
      by_cases ht : (a :: rest).take 8 = chatUrlMarker
      · rw [if_pos ht] at hm
        by_cases he : (((a :: rest).drop 8).takeWhile isChatIdChar).isEmpty
        · rw [if_pos he] at hm; cases hm
        · rw [if_neg he] at hm
          cases hm
          intro hcon
          apply he
          have : ((a :: rest).drop 8).takeWhile isChatIdChar = ("" : String).data := by
            rw [← hcon]
          simpa [List.isEmpty_iff] using this
      · rw [if_neg ht] at hm; cases hm

/-- Claim C4: the save/restore round trip. When the current location carries a
conversation id `c`, a completed `saveHistory M` followed by `restoreHistory c` returns
exactly `M`; and `restoreHistory` of any id with no entry in the parsed store (in
particular of an id that was never saved) returns the empty list. -/
theorem save_restore_roundtrip :
    (∀ (path c : String) (M : List Message) (store store' : Blob),
      getChatIdFromUrl path = some c →
      saveHistory path M store = .ok store' →
      restoreHistory (some c) store' = .ok M) ∧
    (∀ (c : String) (chats : List (String × List Message)) (store : Blob),
      jsonParseBlob store = .ok chats → assocGet chats c = none →
      restoreHistory (some c) store = .ok []) := by
  constructor
  · intro path c M store store' hid hsave
    have hc : c ≠ "" := findChatIdIn_ne_empty path.data c hid
    unfold saveHistory at hsave
    rw [hid] at hsave
    cases hp : jsonParseBlob store with
    | error e => rw [hp] at hsave; cases hsave
    | ok chats =>
      rw [hp] at hsave
      cases hsave
      simp [restoreHistory, hc, jsonParseBlob, assocGet_assocSet_self]
  · intro c chats store hp hget
    by_cases hc : c = ""
    · simp [restoreHistory, hc]
    · simp [restoreHistory, hc, hp, hget]

theorem save_restore_roundtrip_witness :
    restoreHistory (some "abc-123")
      (Blob.wellFormed
        [("abc-123", [⟨"user", "hi", none⟩, ⟨"assistant", "there", some false⟩])]) =
      .ok [⟨"user", "hi", none⟩, ⟨"assistant", "there", some false⟩] ∧
    restoreHistory (some "missing-id") Blob.absent = .ok [] :=
  ⟨save_restore_roundtrip.1 "/chat/s/abc-123" "abc-123"
      [⟨"user", "hi", none⟩, ⟨"assistant", "there", some false⟩] Blob.absent _ rfl rfl,
   save_restore_roundtrip.2 "missing-id" [] Blob.absent rfl rfl⟩

/-- Claim C5, counterexample: on a persisted blob that is present but not parseable as
JSON, `restoreHistory` does not return the empty list — the `JSON.parse` exception
propagates out of it. -/
theorem restore_corrupt_blob_throws_cex :
    restoreHistory (some "abc-123") Blob.corrupt = .error jsonSyntaxError := rfl

/-- Claim C5 (amended): for every conversation id, `restoreHistory` returns the empty
list without throwing when the underlying persisted blob is absent (`JSON.parse(null)`
yields `null`, defaulted to the empty mapping); when the blob is present but not
parseable as JSON, `JSON.parse` throws and the exception propagates out of
`restoreHistory`. -/
theorem restore_absent_empty_corrupt_throws :
    (∀ cid : Option String, restoreHistory cid Blob.absent = .ok []) ∧
    (∀ cid : String, cid ≠ "" →
      restoreHistory (some cid) Blob.corrupt = .error jsonSyntaxError) := by
  constructor
  · intro cid
    cases cid with
    | none => rfl
    | some c =>
      by_cases hc : c = ""
      · simp [restoreHistory, hc]
      · simp [restoreHistory, hc, jsonParseBlob, assocGet]
  · intro cid hc
    simp [restoreHistory, hc, jsonParseBlob]

theorem restore_absent_empty_corrupt_throws_witness :
    restoreHistory (some "deadbeef") Blob.absent = .ok [] ∧
    restoreHistory (some "deadbeef") Blob.corrupt = .error jsonSyntaxError :=
  ⟨restore_absent_empty_corrupt_throws.1 (some "deadbeef"),
   restore_absent_empty_corrupt_throws.2 "deadbeef" (by decide)⟩

/-! ### Helper lemmas for the warning banner -/

theorem insertBeforeTarget_of_not_mem (l : List WarningUi.PNode)
    (h : WarningUi.PNode.target ∉ l) : WarningUi.insertBeforeTarget l = l := by
  induction l with
  | nil => rfl
  | cons n rest ih =>
    rw [WarningUi.insertBeforeTarget]
    rw [if_neg (by intro hn; exact h (hn ▸ List.mem_cons_self n rest))]
    rw [ih (fun hm => h (List.mem_cons_of_mem n hm))]

theorem hasBanner_insertBeforeTarget_of_mem (l : List WarningUi.PNode)
    (h : WarningUi.PNode.target ∈ l) :
    WarningUi.hasBanner (WarningUi.insertBeforeTarget l) = true := by
  induction l with
  | nil => simp at h
  | cons n rest ih =>
    rw [WarningUi.insertBeforeTarget]
    by_cases hn : n = WarningUi.PNode.target
    · rw [if_pos hn]
      simp [WarningUi.hasBanner]
    · rw [if_neg hn]
      have hm : WarningUi.PNode.target ∈ rest := by
        rcases List.mem_cons.mp h with h1 | h1
        · exact absurd h1.symm hn
        · exact h1
      simp [WarningUi.hasBanner] at ih ⊢
      exact Or.inr (ih hm)

theorem insertBeforeTarget_append (pre post : List WarningUi.PNode)
    (hpre : WarningUi.PNode.target ∉ pre) :
    WarningUi.insertBeforeTarget (pre ++ WarningUi.PNode.target :: post) =
      pre ++ WarningUi.PNode.banner :: WarningUi.PNode.target :: post := by
  induction pre with
  | nil =>
    rw [List.nil_append, WarningUi.insertBeforeTarget, if_pos rfl, List.nil_append]
  | cons n rest ih =>
    rw [List.cons_append, WarningUi.insertBeforeTarget]
    rw [if_neg (by intro hn; exact hpre (hn ▸ List.mem_cons_self n rest))]
    rw [ih (fun hm => hpre (List.mem_cons_of_mem n hm)), List.cons_append]

theorem hasBanner_append_cons (pre post : List WarningUi.PNode)
    (hp : WarningUi.PNode.banner ∉ pre) (hq : WarningUi.PNode.banner ∉ post) :
    WarningUi.hasBanner (pre ++ WarningUi.PNode.target :: post) = false := by
  simp only [WarningUi.hasBanner, List.any_eq_false, beq_iff_eq, decide_eq_true_eq]
  intro x hx
  simp only [List.mem_append, List.mem_cons] at hx
  rcases hx with h1 | h1 | h1
  · intro he; exact hp (he ▸ h1)
  · subst h1; intro he; exact WarningUi.PNode.noConfusion he
  · intro he; exact hq (he ▸ h1)

/-- Claim C9: `showWarning` is idempotent — a second invocation on the same parent is a
no-op — and on a parent that holds the turn element and no banner it inserts exactly one
banner node, positioned immediately before the turn element. -/
theorem show_warning_idempotent_single_banner :
    (∀ l : List WarningUi.PNode,
      WarningUi.showWarning (WarningUi.showWarning l) = WarningUi.showWarning l) ∧
    (∀ pre post : List WarningUi.PNode,
      WarningUi.PNode.target ∉ pre → WarningUi.PNode.banner ∉ pre →
      WarningUi.PNode.banner ∉ post →
      WarningUi.showWarning (pre ++ WarningUi.PNode.target :: post) =
        pre ++ WarningUi.PNode.banner :: WarningUi.PNode.target :: post ∧
      WarningUi.bannerCount
        (WarningUi.showWarning (pre ++ WarningUi.PNode.target :: post)) = 1) := by
  constructor
  · intro l
    by_cases hb : WarningUi.hasBanner l = true
    · have h1 : WarningUi.showWarning l = l := by rw [WarningUi.showWarning, if_pos hb]
      rw [h1, h1]
    · have h1 : WarningUi.showWarning l = WarningUi.insertBeforeTarget l := by
        rw [WarningUi.showWarning, if_neg hb]
      by_cases hm : WarningUi.PNode.target ∈ l
      · have h2 : WarningUi.showWarning (WarningUi.insertBeforeTarget l) =
            WarningUi.insertBeforeTarget l := by
          rw [WarningUi.showWarning, if_pos (hasBanner_insertBeforeTarget_of_mem l hm)]
        rw [h1, h2]
      · have h3 : WarningUi.insertBeforeTarget l = l := insertBeforeTarget_of_not_mem l hm
        rw [h1, h3, h1, h3]
  · intro pre post htp hbp hbq
    have h0 : WarningUi.hasBanner (pre ++ WarningUi.PNode.target :: post) = false :=
      hasBanner_append_cons pre post hbp hbq
    have h1 : WarningUi.showWarning (pre ++ WarningUi.PNode.target :: post) =
        pre ++ WarningUi.PNode.banner :: WarningUi.PNode.target :: post := by
      rw [WarningUi.showWarning, if_neg (by simp [h0]), insertBeforeTarget_append pre post htp]
    refine ⟨h1, ?_⟩
    rw [h1]
    rw [WarningUi.bannerCount, List.countP_append, List.countP_cons, List.countP_cons]
    have hcp : ∀ l : List WarningUi.PNode, WarningUi.PNode.banner ∉ l →
        List.countP (fun n => n == WarningUi.PNode.banner) l = 0 := by
      intro l hl
      rw [List.countP_eq_zero]
      intro a ha hcon
      exact hl ((beq_iff_eq.mp hcon) ▸ ha)
    rw [hcp pre hbp, hcp post hbq]
    simp

theorem show_warning_idempotent_single_banner_witness :
    WarningUi.showWarning [WarningUi.PNode.plain 0, WarningUi.PNode.target] =
      [WarningUi.PNode.plain 0, WarningUi.PNode.banner, WarningUi.PNode.target] ∧
    WarningUi.bannerCount
      (WarningUi.showWarning [WarningUi.PNode.plain 0, WarningUi.PNode.target]) = 1 :=
  show_warning_idempotent_single_banner.2 [WarningUi.PNode.plain 0] []
    (by decide) (by decide) (by decide)

/-! ### Helper lemmas for the background handler -/

theorem handleCheckCensorship_eq (req : CheckRequest) (cfg : Background.StorageConfig)
    (net : Background.FetchOutcome) (lastMsg : Message)
    (ha : req.action = "checkCensorship")
    (hk : Background.apiKeyMissing cfg = false)
    (hl : req.history.getLast? = some lastMsg) :
    Background.handleCheckCensorship req cfg net =
      if Background.isCensored lastMsg.content then
        match net with
        | .rejected =>
          .ok ⟨some ⟨"Error: OpenAI API request failed."⟩,
              some ⟨Background.effectiveModel cfg,
                ⟨Background.systemRole (Background.effectiveModel cfg),
                 Background.GPT_SYSTEM_PROMPT, none⟩ :: req.history.dropLast⟩⟩
        | .resolved none =>
          .ok ⟨some ⟨"Error: Unable to fetch a response from GPT."⟩,
              some ⟨Background.effectiveModel cfg,
                ⟨Background.systemRole (Background.effectiveModel cfg),
                 Background.GPT_SYSTEM_PROMPT, none⟩ :: req.history.dropLast⟩⟩
        | .resolved (some []) =>
          .ok ⟨some ⟨"Error: Unable to fetch a response from GPT."⟩,
              some ⟨Background.effectiveModel cfg,
                ⟨Background.systemRole (Background.effectiveModel cfg),
                 Background.GPT_SYSTEM_PROMPT, none⟩ :: req.history.dropLast⟩⟩
        | .resolved (some (c :: _)) =>
          .ok ⟨some ⟨c⟩,
              some ⟨Background.effectiveModel cfg,
                ⟨Background.systemRole (Background.effectiveModel cfg),
                 Background.GPT_SYSTEM_PROMPT, none⟩ :: req.history.dropLast⟩⟩
      else .ok ⟨some ⟨lastMsg.content⟩, none⟩ := by
  simp only [Background.handleCheckCensorship, ha, hk, hl, ne_eq, not_true_eq_false,
    if_false, Bool.false_eq_true, ite_false]

/-- Claim C2, counterexample: a manually forced request whose last history message is
not heuristically censored does not trigger the external rewrite call (`fetched = none`);
the handler never consults the `manual` flag and simply echoes the last assistant
message's content. -/
theorem background_ignores_manual_cex :
    Background.handleCheckCensorship
        ⟨"checkCensorship", "raw-detection-payload",
          [⟨"user", "Tell me about Paris", none⟩,
           ⟨"assistant", "Paris is the capital of France.", some true⟩], true⟩
        ⟨some "sk-test", none⟩ Background.FetchOutcome.rejected =
      .ok ⟨some ⟨"Paris is the capital of France."⟩, none⟩ ∧
    Background.isCensored "Paris is the capital of France." = false := ⟨rfl, rfl⟩

/-- Claim C2 (amended): for every `checkCensorship` request with a configured API key
and a non-empty history, the handler issues the external rewrite call if and only if the
last message of the forwarded history is classified censored by the heuristic regex —
the `manual` flag is never consulted on the remote side — and otherwise echoes the last
message's content unchanged as the replacement, so every such request is answered
through the single success path. -/
theorem rewrite_iff_heuristic_censored :
    ∀ (req : CheckRequest) (cfg : Background.StorageConfig)
      (net : Background.FetchOutcome) (lastMsg : Message),
      req.action = "checkCensorship" →
      Background.apiKeyMissing cfg = false →
      req.history.getLast? = some lastMsg →
      ∃ out, Background.handleCheckCensorship req cfg net = .ok out ∧
        out.fetched.isSome = Background.isCensored lastMsg.content ∧
        (Background.isCensored lastMsg.content = false →
          out.response = some ⟨lastMsg.content⟩) := by
  intro req cfg net lastMsg ha hk hl
  rw [handleCheckCensorship_eq req cfg net lastMsg ha hk hl]
  by_cases hc : Background.isCensored lastMsg.content
  · rw [if_pos hc]
    cases net with
    | rejected => exact ⟨_, rfl, by simp [hc], by simp [hc]⟩
    | resolved choices =>
      cases choices with
      | none => exact ⟨_, rfl, by simp [hc], by simp [hc]⟩
      | some cs =>
        cases cs with
        | nil => exact ⟨_, rfl, by simp [hc], by simp [hc]⟩
        | cons c rest => exact ⟨_, rfl, by simp [hc], by simp [hc]⟩
  · rw [if_neg hc]
    have hcf : Background.isCensored lastMsg.content = false := by simpa using hc
    exact ⟨_, rfl, by simp [hcf], by simp⟩

theorem rewrite_iff_heuristic_censored_witness :
    ∃ out, Background.handleCheckCensorship
        ⟨"checkCensorship", "raw", [⟨"user", "q", none⟩,
          ⟨"assistant", "I cannot discuss that.", some true⟩], false⟩
        ⟨some "sk-test", none⟩ (Background.FetchOutcome.resolved (some ["Answer."])) =
        .ok out ∧
      out.fetched.isSome = Background.isCensored "I cannot discuss that." ∧
      (Background.isCensored "I cannot discuss that." = false →
        out.response = some ⟨"I cannot discuss that."⟩) :=
  rewrite_iff_heuristic_censored
    ⟨"checkCensorship", "raw", [⟨"user", "q", none⟩,
      ⟨"assistant", "I cannot discuss that.", some true⟩], false⟩
    ⟨some "sk-test", none⟩ (Background.FetchOutcome.resolved (some ["Answer."]))
    ⟨"assistant", "I cannot discuss that.", some true⟩ rfl rfl rfl

/-- Claim C3: every failure of the remote rewrite path — missing API key, rejected
network call, or a provider response with no choices — produces a response whose
replacement is a synthesized human-readable error string, and (missing key aside) any
request with a non-empty history is always answered with some replacement: there is no
hanging request and no distinct error channel. -/
theorem failures_yield_error_replacement :
    (∀ (req : CheckRequest) (cfg : Background.StorageConfig)
       (net : Background.FetchOutcome),
      req.action = "checkCensorship" → Background.apiKeyMissing cfg = true →
      Background.handleCheckCensorship req cfg net =
        .ok ⟨some ⟨"Error: No OpenAI API key set. Skipping censorship bypass."⟩, none⟩) ∧
    (∀ (req : CheckRequest) (cfg : Background.StorageConfig) (lastMsg : Message),
      req.action = "checkCensorship" → Background.apiKeyMissing cfg = false →
      req.history.getLast? = some lastMsg →
      Background.isCensored lastMsg.content = true →
      ∃ fc, Background.handleCheckCensorship req cfg .rejected =
        .ok ⟨some ⟨"Error: OpenAI API request failed."⟩, fc⟩) ∧
    (∀ (req : CheckRequest) (cfg : Background.StorageConfig) (lastMsg : Message)
       (choices : Option (List String)),
      req.action = "checkCensorship" → Background.apiKeyMissing cfg = false →
      req.history.getLast? = some lastMsg →
      Background.isCensored lastMsg.content = true →
      (choices = none ∨ choices = some []) →
      ∃ fc, Background.handleCheckCensorship req cfg (.resolved choices) =
        .ok ⟨some ⟨"Error: Unable to fetch a response from GPT."⟩, fc⟩) ∧
    (∀ (req : CheckRequest) (cfg : Background.StorageConfig)
       (net : Background.FetchOutcome),
      req.action = "checkCensorship" →
      (Background.apiKeyMissing cfg = true ∨ req.history ≠ []) →
      ∃ out, Background.handleCheckCensorship req cfg net = .ok out ∧
        out.response.isSome = true) := by
  refine ⟨?_, ?_, ?_, ?_⟩
  · intro req cfg net ha hk
    simp [Background.handleCheckCensorship, ha, hk]
  · intro req cfg lastMsg ha hk hl hc
    rw [handleCheckCensorship_eq req cfg .rejected lastMsg ha hk hl, if_pos hc]
    exact ⟨_, rfl⟩
  · intro req cfg lastMsg choices ha hk hl hc hch
    rcases hch with h | h <;> subst h <;>
      rw [handleCheckCensorship_eq req cfg _ lastMsg ha hk hl, if_pos hc] <;>
      exact ⟨_, rfl⟩
  · intro req cfg net ha hke
    rcases hke with hk | hne
    · exact ⟨⟨some ⟨"Error: No OpenAI API key set. Skipping censorship bypass."⟩, none⟩,
        by simp [Background.handleCheckCensorship, ha, hk], rfl⟩
    · have hsome : req.history.getLast?.isSome := by
        rw [List.getLast?_isSome]; exact hne
      obtain ⟨lastMsg, hl⟩ := Option.isSome_iff_exists.mp hsome
      by_cases hk : Background.apiKeyMissing cfg = true
      · exact ⟨⟨some ⟨"Error: No OpenAI API key set. Skipping censorship bypass."⟩, none⟩,
          by simp [Background.handleCheckCensorship, ha, hk], rfl⟩
      · have hkf : Background.apiKeyMissing cfg = false := by simpa using hk
        rw [handleCheckCensorship_eq req cfg net lastMsg ha hkf hl]
        by_cases hc : Background.isCensored lastMsg.content
        · rw [if_pos hc]
          cases net with
          | rejected => exact ⟨_, rfl, rfl⟩
          | resolved choices =>
            cases choices with
            | none => exact ⟨_, rfl, rfl⟩
            | some cs =>
              cases cs with
              | nil => exact ⟨_, rfl, rfl⟩
              | cons c rest => exact ⟨_, rfl, rfl⟩
        · rw [if_neg hc]
          exact ⟨_, rfl, rfl⟩

theorem failures_yield_error_replacement_witness :
    Background.handleCheckCensorship ⟨"checkCensorship", "raw", [], false⟩
        ⟨none, none⟩ Background.FetchOutcome.rejected =
      .ok ⟨some ⟨"Error: No OpenAI API key set. Skipping censorship bypass."⟩, none⟩ ∧
    (∃ fc, Background.handleCheckCensorship
        ⟨"checkCensorship", "raw", [⟨"user", "q", none⟩,
          ⟨"assistant", "I am unable to help.", some true⟩], false⟩
        ⟨some "sk-test", none⟩ .rejected =
        .ok ⟨some ⟨"Error: OpenAI API request failed."⟩, fc⟩) ∧
    (∃ fc, Background.handleCheckCensorship
        ⟨"checkCensorship", "raw", [⟨"user", "q", none⟩,
          ⟨"assistant", "I am unable to help.", some true⟩], false⟩
        ⟨some "sk-test", none⟩ (.resolved none) =
        .ok ⟨some ⟨"Error: Unable to fetch a response from GPT."⟩, fc⟩) :=
  ⟨failures_yield_error_replacement.1 ⟨"checkCensorship", "raw", [], false⟩
      ⟨none, none⟩ Background.FetchOutcome.rejected rfl rfl,
   failures_yield_error_replacement.2.1
      ⟨"checkCensorship", "raw", [⟨"user", "q", none⟩,
        ⟨"assistant", "I am unable to help.", some true⟩], false⟩
      ⟨some "sk-test", none⟩ ⟨"assistant", "I am unable to help.", some true⟩
      rfl rfl rfl rfl,
   failures_yield_error_replacement.2.2.1
      ⟨"checkCensorship", "raw", [⟨"user", "q", none⟩,
        ⟨"assistant", "I am unable to help.", some true⟩], false⟩
      ⟨some "sk-test", none⟩ ⟨"assistant", "I am unable to help.", some true⟩
      none rfl rfl rfl rfl (Or.inl rfl)⟩

/-- Claim C6: whenever a `checkCensorship` request triggers the external rewrite call,
the message list forwarded to the provider is exactly the fixed instructive message
(content `GPT_SYSTEM_PROMPT`, role `system` — or `developer` for `o3*` models)
prepended to the request's history minus its final message. -/
theorem system_prompt_prepended :
    ∀ (req : CheckRequest) (cfg : Background.StorageConfig)
      (net : Background.FetchOutcome) (lastMsg : Message),
      req.action = "checkCensorship" →
      Background.apiKeyMissing cfg = false →
      req.history.getLast? = some lastMsg →
      Background.isCensored lastMsg.content = true →
      ∃ out, Background.handleCheckCensorship req cfg net = .ok out ∧
        out.fetched = some ⟨Background.effectiveModel cfg,
          ⟨Background.systemRole (Background.effectiveModel cfg),
           Background.GPT_SYSTEM_PROMPT, none⟩ :: req.history.dropLast⟩ := by
  intro req cfg net lastMsg ha hk hl hc
  rw [handleCheckCensorship_eq req cfg net lastMsg ha hk hl, if_pos hc]
  cases net with
  | rejected => exact ⟨_, rfl, rfl⟩
  | resolved choices =>
    cases choices with
    | none => exact ⟨_, rfl, rfl⟩
    | some cs =>
      cases cs with
      | nil => exact ⟨_, rfl, rfl⟩
      | cons c rest => exact ⟨_, rfl, rfl⟩

theorem system_prompt_prepended_witness :
    ∃ out, Background.handleCheckCensorship
        ⟨"checkCensorship", "raw", [⟨"user", "q", none⟩,
          ⟨"assistant", "This is a sensitive topic.", some true⟩], false⟩
        ⟨some "sk-test", none⟩ (Background.FetchOutcome.resolved (some ["Answer."])) =
        .ok out ∧
      out.fetched = some ⟨Background.effectiveModel ⟨some "sk-test", none⟩,
        ⟨Background.systemRole (Background.effectiveModel ⟨some "sk-test", none⟩),
         Background.GPT_SYSTEM_PROMPT, none⟩ :: [⟨"user", "q", none⟩]⟩ :=
  system_prompt_prepended
    ⟨"checkCensorship", "raw", [⟨"user", "q", none⟩,
      ⟨"assistant", "This is a sensitive topic.", some true⟩], false⟩
    ⟨some "sk-test", none⟩ (Background.FetchOutcome.resolved (some ["Answer."]))
    ⟨"assistant", "This is a sensitive topic.", some true⟩ rfl rfl rfl rfl

/-! ### Helper lemmas for the content-script listener -/

theorem listModify_length (f : α → α) (l : List α) (i : Nat) :
    (Page.listModify f l i).length = l.length := by
  induction l generalizing i with
  | nil => rfl
  | cons a t ih =>
    cases i with
    | zero => rfl
    | succ j => simp [Page.listModify, ih]

theorem listModify_getElem?_ne (f : α → α) (l : List α) (i j : Nat) (h : j ≠ i) :
    (Page.listModify f l i)[j]? = l[j]? := by
  induction l generalizing i j with
  | nil => rfl
  | cons a t ih =>
    cases i with
    | zero =>
      cases j with
      | zero => exact absurd rfl h
      | succ j2 => simp [Page.listModify]
    | succ i2 =>
      cases j with
      | zero => simp [Page.listModify]
      | succ j2 =>
        simp only [Page.listModify, List.getElem?_cons_succ]
        exact ih i2 j2 (fun he => h (by rw [he]))

theorem listModify_getElem?_self (f : α → α) (l : List α) (i : Nat) :
    (Page.listModify f l i)[i]? = (l[i]?).map f := by
  induction l generalizing i with
  | nil => rfl
  | cons a t ih =>
    cases i with
    | zero => simp [Page.listModify]
    | succ j => simp [Page.listModify, ih]

theorem take_getLast?_getElem? (l : List α) (n : Nat) (b : α)
    (h : (l.take n).getLast? = some b) :
    l[(l.take n).length - 1]? = some b := by
  have hne : l.take n ≠ [] := by
    intro he
    rw [he] at h
    cases h
  have hlen : 0 < (l.take n).length := List.length_pos.mpr hne
  have hlt : (l.take n).length - 1 < n := by
    have := List.length_take n l
    omega
  rw [List.getLast?_eq_getElem?] at h
  rw [← List.getElem?_take_of_lt hlt]
  exact h

theorem jsScopeLen_nat (k n : Nat) (hk : k < n) :
    Page.jsScopeLen (some (k : Int)) n = k + 1 := by
  have h0 : ¬((k : Int) + 1 = 0) := by omega
  have h1 : ¬((k : Int) + 1 < 0) := by omega
  simp only [Page.jsScopeLen, Page.jsSliceClamp, h0, h1, if_false, ite_false]
  have h2 : ((k : Int) + 1).toNat = k + 1 := by omega
  rw [h2]
  omega

theorem promptPair_flatten_length (m : Bool) (l : List Page.Bubble) :
    ((l.map (Page.promptPair m)).flatten).length = 2 * l.length := by
  induction l with
  | nil => rfl
  | cons b t ih =>
    simp only [List.map_cons, List.flatten_cons, List.length_append, ih,
      Page.promptPair, List.length_cons, List.length_nil, List.length_cons]
    omega

theorem contentListener_eq (ev : Page.PageEvent) (bubbles : List Page.Bubble)
    (response : Option String) (b0 : Page.Bubble)
    (hsw : ev.sourceIsWindow = true) (hty : ev.dtype = "DEEPSEEK_CENSORSHIP")
    (hlast : (Page.scopeOf ev bubbles).getLast? = some b0) :
    Page.contentListener ev bubbles response =
      (if Page.hasReplacement response then
        .ok ⟨Page.listModify
              (fun b => { Page.appendExternalAiButton (Page.showWarning b) with
                content := response.getD "" })
              (Page.listModify (fun b => { b with content := Page.placeholderText })
                bubbles ((Page.scopeOf ev bubbles).length - 1))
              ((Page.scopeOf ev bubbles).length - 1),
            some ⟨"checkCensorship", ev.content,
              ((Page.scopeOf ev bubbles).map (Page.promptPair ev.manual)).flatten,
              ev.manual⟩,
            some (((Page.scopeOf ev bubbles).map (Page.promptPair ev.manual)).flatten.dropLast
              ++ [⟨"assistant", response.getD "", some true⟩])⟩
      else
        .ok ⟨Page.listModify
              (fun b => Page.appendExternalAiButton
                (Page.hideWarning { b with content := b0.content }))
              (Page.listModify (fun b => { b with content := Page.placeholderText })
                bubbles ((Page.scopeOf ev bubbles).length - 1))
              ((Page.scopeOf ev bubbles).length - 1),
            some ⟨"checkCensorship", ev.content,
              ((Page.scopeOf ev bubbles).map (Page.promptPair ev.manual)).flatten,
              ev.manual⟩,
            some (((Page.scopeOf ev bubbles).map (Page.promptPair ev.manual)).flatten.dropLast
              ++ [⟨"assistant", b0.content, some false⟩])⟩) := by
  simp only [Page.contentListener, hsw, hty, hlast, Bool.true_eq_false, ne_eq,
    not_true_eq_false, or_self, if_false, ite_false]

/-- Claim C1: on a reconciliation response with no replacement (absent response or a
falsy `replacement`), the detection-event handler reverts the affected turn's rendered
content to the `innerHTML` snapshot taken before the in-progress placeholder was set,
removes any warning banner from that turn (and attaches the retry control), leaves all
other turns untouched, and passes to `saveHistory` the reconciled history whose final
assistant message carries the pre-request content and `censored: false`. -/
theorem restored_branch_reverts_and_persists :
    ∀ (ev : Page.PageEvent) (bubbles : List Page.Bubble) (response : Option String)
      (b0 : Page.Bubble),
      ev.sourceIsWindow = true → ev.dtype = "DEEPSEEK_CENSORSHIP" →
      Page.hasReplacement response = false →
      (Page.scopeOf ev bubbles).getLast? = some b0 →
      ∃ out, Page.contentListener ev bubbles response = .ok out ∧
        out.bubbles[(Page.scopeOf ev bubbles).length - 1]? =
          some ⟨b0.content, b0.userText, false, true⟩ ∧
        (∀ j, j ≠ (Page.scopeOf ev bubbles).length - 1 →
          out.bubbles[j]? = bubbles[j]?) ∧
        out.saved = some
          (((Page.scopeOf ev bubbles).map (Page.promptPair ev.manual)).flatten.dropLast ++
            [⟨"assistant", b0.content, some false⟩]) := by
  intro ev bubbles response b0 hsw hty hrep hlast
  have hb : bubbles[(Page.scopeOf ev bubbles).length - 1]? = some b0 :=
    take_getLast?_getElem? bubbles (Page.jsScopeLen ev.index bubbles.length) b0 hlast
  rw [contentListener_eq ev bubbles response b0 hsw hty hlast, if_neg (by simp [hrep])]
  refine ⟨_, rfl, ?_, ?_, rfl⟩
  · show (Page.listModify _ (Page.listModify _ bubbles _) _)[_]? = _
    rw [listModify_getElem?_self, listModify_getElem?_self, hb]
    obtain ⟨bc, bu, bw, bb⟩ := b0
    cases bb <;> rfl
  · intro j hj
    show (Page.listModify _ (Page.listModify _ bubbles _) _)[j]? = _
    rw [listModify_getElem?_ne _ _ _ _ hj, listModify_getElem?_ne _ _ _ _ hj]

theorem restored_branch_reverts_and_persists_witness :
    ∃ out, Page.contentListener ⟨true, "DEEPSEEK_CENSORSHIP", "raw", none, false⟩
        [⟨"orig answer", some "question", true, false⟩] none = .ok out ∧
      out.bubbles[(Page.scopeOf ⟨true, "DEEPSEEK_CENSORSHIP", "raw", none, false⟩
          [⟨"orig answer", some "question", true, false⟩]).length - 1]? =
        some ⟨"orig answer", some "question", false, true⟩ ∧
      (∀ j, j ≠ (Page.scopeOf ⟨true, "DEEPSEEK_CENSORSHIP", "raw", none, false⟩
          [⟨"orig answer", some "question", true, false⟩]).length - 1 →
        out.bubbles[j]? = [(⟨"orig answer", some "question", true, false⟩ : Page.Bubble)][j]?) ∧
      out.saved = some
        (((Page.scopeOf ⟨true, "DEEPSEEK_CENSORSHIP", "raw", none, false⟩
            [⟨"orig answer", some "question", true, false⟩]).map
          (Page.promptPair false)).flatten.dropLast ++
          [⟨"assistant", "orig answer", some false⟩]) :=
  restored_branch_reverts_and_persists ⟨true, "DEEPSEEK_CENSORSHIP", "raw", none, false⟩
    [⟨"orig answer", some "question", true, false⟩] none
    ⟨"orig answer", some "question", true, false⟩ rfl rfl rfl rfl

/-- Claim C7: a manual retry on turn index `k` (with `k` a valid index among the `n`
rendered turns) scopes reconciliation to exactly turns `0..k`: the selected scope is the
`k+1`-turn prefix, the extracted history sent in the request covers those `k+1` turns
(length `2*(k+1)`), and every turn other than turn `k` — in particular every turn after
`k` — is left untouched. -/
theorem manual_retry_scopes_to_prefix :
    ∀ (ev : Page.PageEvent) (bubbles : List Page.Bubble) (response : Option String)
      (k : Nat),
      ev.sourceIsWindow = true → ev.dtype = "DEEPSEEK_CENSORSHIP" →
      ev.index = some (k : Int) → ev.manual = true → k < bubbles.length →
      Page.scopeOf ev bubbles = bubbles.take (k + 1) ∧
      ∃ out, Page.contentListener ev bubbles response = .ok out ∧
        out.request = some ⟨"checkCensorship", ev.content,
          ((bubbles.take (k + 1)).map (Page.promptPair true)).flatten, true⟩ ∧
        ((bubbles.take (k + 1)).map (Page.promptPair true)).flatten.length = 2 * (k + 1) ∧
        out.bubbles.length = bubbles.length ∧
        (∀ j, j ≠ k → out.bubbles[j]? = bubbles[j]?) := by
  intro ev bubbles response k hsw hty hidx hman hk
  have hscope : Page.scopeOf ev bubbles = bubbles.take (k + 1) := by
    unfold Page.scopeOf
    rw [hidx, jsScopeLen_nat k bubbles.length hk]
  have hlen : (bubbles.take (k + 1)).length = k + 1 := by
    rw [List.length_take]; omega
  have hlen2 : ((bubbles.take (k + 1)).map (Page.promptPair true)).flatten.length =
      2 * (k + 1) := by
    rw [promptPair_flatten_length, hlen]
  have hne : bubbles.take (k + 1) ≠ [] := by
    intro he; rw [he] at hlen; simp at hlen
  have hsome : (Page.scopeOf ev bubbles).getLast?.isSome := by
    rw [hscope, List.getLast?_isSome]; exact hne
  obtain ⟨b0, hlast⟩ := Option.isSome_iff_exists.mp hsome
  have hidxeq : (Page.scopeOf ev bubbles).length - 1 = k := by rw [hscope, hlen]; omega
  refine ⟨hscope, ?_⟩
  rw [contentListener_eq ev bubbles response b0 hsw hty hlast]
  by_cases hr : Page.hasReplacement response = true
  · rw [if_pos hr]
    refine ⟨_, rfl, ?_, hlen2, ?_, ?_⟩
    · simp only [hscope, hman]
    · show (Page.listModify _ (Page.listModify _ bubbles _) _).length = _
      rw [listModify_length, listModify_length]
    · intro j hj
      show (Page.listModify _ (Page.listModify _ bubbles _) _)[j]? = _
      rw [hidxeq, listModify_getElem?_ne _ _ _ _ hj, listModify_getElem?_ne _ _ _ _ hj]
  · rw [if_neg hr]
    refine ⟨_, rfl, ?_, hlen2, ?_, ?_⟩
    · simp only [hscope, hman]
    · show (Page.listModify _ (Page.listModify _ bubbles _) _).length = _
      rw [listModify_length, listModify_length]
    · intro j hj
      show (Page.listModify _ (Page.listModify _ bubbles _) _)[j]? = _
      rw [hidxeq, listModify_getElem?_ne _ _ _ _ hj, listModify_getElem?_ne _ _ _ _ hj]

theorem manual_retry_scopes_to_prefix_witness :
    Page.scopeOf ⟨true, "DEEPSEEK_CENSORSHIP", "first answer", some 0, true⟩
        [⟨"first answer", some "q1", false, true⟩, ⟨"second answer", some "q2", false, true⟩] =
      [⟨"first answer", some "q1", false, true⟩,
        ⟨"second answer", some "q2", false, true⟩].take 1 ∧
    ∃ out, Page.contentListener ⟨true, "DEEPSEEK_CENSORSHIP", "first answer", some 0, true⟩
        [⟨"first answer", some "q1", false, true⟩, ⟨"second answer", some "q2", false, true⟩]
        (some "better") = .ok out ∧
      out.request = some ⟨"checkCensorship", "first answer",
        (([⟨"first answer", some "q1", false, true⟩,
           ⟨"second answer", some "q2", false, true⟩].take 1).map
          (Page.promptPair true)).flatten, true⟩ ∧
      (([⟨"first answer", some "q1", false, true⟩,
         ⟨"second answer", some "q2", false, true⟩].take 1).map
        (Page.promptPair true)).flatten.length = 2 * (0 + 1) ∧
      out.bubbles.length = 2 ∧
      (∀ j, j ≠ 0 → out.bubbles[j]? =
        [(⟨"first answer", some "q1", false, true⟩ : Page.Bubble),
         ⟨"second answer", some "q2", false, true⟩][j]?) :=
  manual_retry_scopes_to_prefix ⟨true, "DEEPSEEK_CENSORSHIP", "first answer", some 0, true⟩
    [⟨"first answer", some "q1", false, true⟩, ⟨"second answer", some "q2", false, true⟩]
    (some "better") 0 rfl rfl rfl rfl (by decide)

/-- Claim C10 (amended): the detection-event handler does have the unstated precondition
that at least one rendered turn lies in scope — whenever the selected scope is empty
(e.g. no rendered turns), indexing its last element yields `undefined` and the
`innerHTML` read / text assignment throws, the receiver validating only the source and
the discriminator; however, a page-forged index of `-1` does not make the slice empty:
`-1 + 1` is the falsy `0`, so the slice end falls back to the full bubble-list length
and the scope is the whole list. -/
theorem empty_scope_throws_amended :
    (∀ (ev : Page.PageEvent) (bubbles : List Page.Bubble) (response : Option String),
      ev.sourceIsWindow = true → ev.dtype = "DEEPSEEK_CENSORSHIP" →
      Page.scopeOf ev bubbles = [] →
      Page.contentListener ev bubbles response =
        .error "TypeError: cannot read innerHTML of undefined") ∧
    (∀ (ev : Page.PageEvent) (bubbles : List Page.Bubble),
      ev.index = some (-1) → Page.scopeOf ev bubbles = bubbles) := by
  constructor
  · intro ev bubbles response hsw hty hscope
    simp only [Page.contentListener, hsw, hty, hscope, Bool.true_eq_false, ne_eq,
      not_true_eq_false, or_self, if_false, ite_false, List.getLast?_nil]
  · intro ev bubbles h
    have h0 : (-1 : Int) + 1 = 0 := by norm_num
    simp [Page.scopeOf, Page.jsScopeLen, h, h0, List.take_length]

/-- Claim C10, counterexample to the parenthetical: a forged `index` of `-1` does not
produce an empty slice — on a page with one rendered turn the scope has length `1` and
the handler completes without throwing. -/
theorem index_minus_one_full_scope_cex :
    (Page.scopeOf ⟨true, "DEEPSEEK_CENSORSHIP", "raw", some (-1), true⟩
        [⟨"answer", none, false, false⟩]).length = 1 ∧
    exceptIsOk (Page.contentListener ⟨true, "DEEPSEEK_CENSORSHIP", "raw", some (-1), true⟩
        [⟨"answer", none, false, false⟩] none) = true := ⟨rfl, rfl⟩

theorem empty_scope_throws_amended_witness :
    Page.contentListener ⟨true, "DEEPSEEK_CENSORSHIP", "raw", none, false⟩ [] none =
      .error "TypeError: cannot read innerHTML of undefined" ∧
    Page.scopeOf ⟨true, "DEEPSEEK_CENSORSHIP", "raw", some (-1), false⟩
        [⟨"a", none, false, false⟩] = [⟨"a", none, false, false⟩] :=
  ⟨empty_scope_throws_amended.1 ⟨true, "DEEPSEEK_CENSORSHIP", "raw", none, false⟩ [] none
      rfl rfl rfl,
   empty_scope_throws_amended.2 ⟨true, "DEEPSEEK_CENSORSHIP", "raw", some (-1), false⟩
      [⟨"a", none, false, false⟩] rfl⟩
